import Mathlib

/-!
# Verification of the MC HEROS storefront backend

Shallow embedding of `src/main.py` (FastAPI storefront backend) and the
document-store layer it uses.  Documents are modelled as association lists
of string keys and `BVal` values; the Mongo-style store is a map from
collection names to document lists together with a counter generating
fresh object identifiers.  Machine floats of the Python source are
modelled as rationals; Python `round(x, 2)` (banker's rounding) is
modelled as round-half-even on rationals.

The repository's `database.py` (providing `db`, `create_document`,
`get_documents`) is not among the given sources; those two functions are
modelled from the spec, as marked in their doc comments.
-/

/-- A BSON-style value: strings, rational numbers (Python floats),
integers, object identifiers (modelled as naturals), `None`, arrays, and
nested documents. -/
inductive BVal where
  | str : String → BVal
  | num : ℚ → BVal
  | int : ℤ → BVal
  | oid : Nat → BVal
  | null : BVal
  | arr : List BVal → BVal
  | doc : List (String × BVal) → BVal

/-- A document: an association list with string keys (Python `dict`,
insertion-ordered). -/
abbrev Doc := List (String × BVal)

/-- Character for a decimal digit (model of the identifier alphabet). -/
def digitChar : Nat → Char
  | 0 => '0' | 1 => '1' | 2 => '2' | 3 => '3' | 4 => '4'
  | 5 => '5' | 6 => '6' | 7 => '7' | 8 => '8' | _ => '9'

/-- Numeric value of a digit character. -/
def digitVal : Char → Nat
  | '0' => 0 | '1' => 1 | '2' => 2 | '3' => 3 | '4' => 4
  | '5' => 5 | '6' => 6 | '7' => 7 | '8' => 8 | '9' => 9
  | _ => 0

/-- Whether a character belongs to the identifier alphabet. -/
def isDigitChar (c : Char) : Bool :=
  c = '0' ∨ c = '1' ∨ c = '2' ∨ c = '3' ∨ c = '4' ∨
  c = '5' ∨ c = '6' ∨ c = '7' ∨ c = '8' ∨ c = '9'

/-- Digit list of `n` (most significant first); model of the printed form
of a store identifier (`str(ObjectId)` in the source). -/
def toDigits (n : Nat) : List Char :=
  if _h : n < 10 then [digitChar n]
  else toDigits (n / 10) ++ [digitChar (n % 10)]
termination_by n
decreasing_by
  exact Nat.div_lt_self (by omega) (by omega)

/-- `str(_id)`: printed string form of an object identifier. -/
def pyObjStr (n : Nat) : String := String.mk (toDigits n)

/-- Model of `ObjectId(s)` / `ObjectId.is_valid`: parse a path-parameter
string back into an identifier; `none` models the `InvalidId` exception
raised on a malformed identifier. -/
def oidOfString (s : String) : Option Nat :=
  if s.data.isEmpty then none
  else if s.data.all isDigitChar then
    some (s.data.foldl (fun a c => a * 10 + digitVal c) 0)
  else none

/-- Python `str(v)` on stored values (in this code only identifiers reach
it). -/
def pyStr : BVal → String
  | .str s => s
  | .oid n => pyObjStr n
  | .num q => toString q
  | .int i => toString i
  | .null => "None"
  | .arr _ => "<list>"
  | .doc _ => "<dict>"

/-- `d.get(k)` on a Python dict modelled as an association list: value of
the first entry with key `k`. -/
def dictFind (k : String) : Doc → Option BVal
  | [] => none
  | (k', v) :: rest => if k' = k then some v else dictFind k rest

/-- `d[k] = v` on a Python dict: replace the value in place if the key
exists, append the entry otherwise. -/
def dictSet (k : String) (v : BVal) : Doc → Doc
  | [] => [(k, v)]
  | (k', v') :: rest => if k' = k then (k, v) :: rest else (k', v') :: dictSet k v rest

/-- The list-comprehension conversion of `serialize_doc`:
`str(x) if isinstance(x, ObjectId) else x`. -/
def convElem : BVal → BVal
  | .oid n => .str (pyObjStr n)
  | v => v

mutual

/-- The per-value conversion done by `serialize_doc`'s loop body: a direct
`ObjectId` becomes its string, a list has its direct `ObjectId` elements
converted, a nested dict is recursively serialized, anything else is kept. -/
def transformVal : BVal → BVal
  | .oid n => .str (pyObjStr n)
  | .arr l => .arr (l.map convElem)
  | .doc m => .doc (serialize_doc m)
  | v => v
termination_by v => 2 * sizeOf v

/-- Drops the first `"_id"` entry (the `pop`) and applies `transformVal`
to every remaining value (the `for k, v in list(d.items())` loop of
`serialize_doc`); the Boolean records whether `"_id"` was already
dropped. -/
def mapValsPop : Bool → Doc → Doc
  | _, [] => []
  | removed, (k, v) :: rest =>
    if k = "_id" && !removed then mapValsPop true rest
    else (k, transformVal v) :: mapValsPop removed rest
termination_by _ d => 2 * sizeOf d

/-- `serialize_doc` of `src/main.py`: a falsy (empty) document is returned
unchanged; otherwise `"_id"` is popped, `"id"` is set to its string form
when it was present and non-null, and every value is transformed.  (The
source sets `"id"` before its loop runs; the loop leaves string values
unchanged, so setting it after the transformed core is equivalent.) -/
def serialize_doc (d : Doc) : Doc :=
  if d.isEmpty then d
  else
    let core := mapValsPop false d
    match dictFind "_id" d with
    | some .null => core
    | some v => dictSet "id" (.str (pyStr v)) core
    | none => core
termination_by 2 * sizeOf d + 1

end

/-- Floor of a rational, computed on the numerator and denominator. -/
def ratFloor (q : ℚ) : ℤ := Int.fdiv q.num q.den

/-- Round a rational half to even to the nearest integer. -/
def pyRoundInt (x : ℚ) : ℤ :=
  if x - ratFloor x < 1 / 2 then ratFloor x
  else if 1 / 2 < x - ratFloor x then ratFloor x + 1
  else if ratFloor x % 2 = 0 then ratFloor x else ratFloor x + 1

/-- Python `round(x, 2)`: round half to even at two decimal places
(model of float banker's rounding on rationals). -/
def pyRound2 (q : ℚ) : ℚ := (pyRoundInt (q * 100) : ℚ) / 100

/-- The document store: named collections of documents, a counter
generating fresh object identifiers, whether the global `db` handle is
`None`, and whether store operations currently fail (unreachable store). -/
structure Store where
  colls : List (String × List Doc)
  nextId : Nat
  dbNone : Bool
  failing : Bool

/-- Documents of a collection (empty when the collection is absent). -/
def getColl (st : Store) (c : String) : List Doc :=
  match st.colls.find? (fun p => p.1 == c) with
  | some p => p.2
  | none => []

/-- Replace (or create) a collection's document list. -/
def collSet (c : String) (ds : List Doc) : List (String × List Doc) →
    List (String × List Doc)
  | [] => [(c, ds)]
  | (k, v) :: rest => if k = c then (c, ds) :: rest else (k, v) :: collSet c ds rest

/-- Whether a store operation raises: the store is unreachable or the
`db` handle is `None` (subscripting `None` raises). -/
def storeDown (st : Store) : Bool := st.failing || st.dbNone

/-- `db[c].count_documents({})`. -/
def count_documents (st : Store) (c : String) : Except String Nat :=
  if storeDown st then .error "store unreachable"
  else .ok (getColl st c).length

/-- `db[c].insert_many(docs)`: each document gets a fresh `_id`. -/
def insert_many (st : Store) (c : String) (docs : List Doc) :
    Except String Store :=
  if storeDown st then .error "store unreachable"
  else
    let tagged := docs.enum.map (fun p => ("_id", BVal.oid (st.nextId + p.1)) :: p.2)
    .ok { st with colls := collSet c (getColl st c ++ tagged) st.colls,
                  nextId := st.nextId + docs.length }

/-- Whether a document's `_id` is the identifier `i`. -/
def hasIdB (i : Nat) (d : Doc) : Bool :=
  match dictFind "_id" d with
  | some (.oid j) => j == i
  | _ => false

/-- `db[c].find_one({"_id": ObjectId(i)})`. -/
def find_one (st : Store) (c : String) (i : Nat) : Except String (Option Doc) :=
  if storeDown st then .error "store unreachable"
  else .ok ((getColl st c).find? (hasIdB i))

/-- `db.list_collection_names()`. -/
def list_collection_names (st : Store) : Except String (List String) :=
  if st.failing then .error "store unreachable"
  else .ok (st.colls.map (fun p => p.1))

/-- Modelled from the spec: `create_document` of the missing
`database.py`.  Spec 4.1: generic insert over a named collection, keyed by
an opaque store-generated identifier; insert returns the new identifier
(in string form, since identifiers "round-trip to/from string form for
transport"). -/
def create_document (st : Store) (c : String) (data : Doc) :
    Except String (Store × String) :=
  if storeDown st then .error "store unreachable"
  else
    let i := st.nextId
    .ok ({ st with
            colls := collSet c (getColl st c ++ [("_id", BVal.oid i) :: data]) st.colls,
            nextId := i + 1 },
         pyObjStr i)

/-- Modelled from the spec: `get_documents` of the missing `database.py`.
Spec 4.1: fetch-all returns every document in a collection unfiltered. -/
def get_documents (st : Store) (c : String) : Except String (List Doc) :=
  if storeDown st then .error "store unreachable"
  else .ok (getColl st c)

/-- `OrderItem` of `src/main.py` (prices as rationals). -/
structure OrderItemV where
  product_id : String
  name : String
  price : ℚ
  quantity : ℤ
deriving DecidableEq

/-- `OrderCreate` of `src/main.py` (emails modelled as plain strings). -/
structure OrderCreateV where
  buyer_email : String
  buyer_name : String
  ign : Option String
  items : List OrderItemV
  note : Option String
deriving DecidableEq

/-- `OrderOut` of `src/main.py`. -/
structure OrderOutV where
  id : String
  buyer_email : String
  buyer_name : String
  ign : Option String
  items : List OrderItemV
  total : ℚ
  status : String
deriving DecidableEq

/-- `ProductOut` of `src/main.py`. -/
structure ProductOutV where
  id : String
  name : String
  description : Option String
  price : ℚ
  category : String
  image : Option String
deriving DecidableEq

/-- An endpoint outcome: a payload, or `HTTPException(status_code, detail)`. -/
inductive HResp (α : Type) where
  | ok : α → HResp α
  | err : Nat → String → HResp α
deriving DecidableEq

/-- Pydantic validation of `OrderCreate` as FastAPI performs it before the
handler runs: every item quantity satisfies `Field(ge=1)`. -/
def validReq (r : OrderCreateV) : Prop := ∀ i ∈ r.items, 1 ≤ i.quantity

instance (r : OrderCreateV) : Decidable (validReq r) := by
  unfold validReq; infer_instance

/-- `i.model_dump()` for an order item. -/
def itemToDoc (i : OrderItemV) : BVal :=
  .doc [("product_id", .str i.product_id), ("name", .str i.name),
        ("price", .num i.price), ("quantity", .int i.quantity)]

/-- An optional string as a stored value (`None` ↦ null). -/
def optStrVal : Option String → BVal
  | some s => .str s
  | none => .null

/-- Pydantic parse of an `OrderItem` from a stored value (re-validates
`quantity ≥ 1`). -/
def itemOfVal : BVal → Option OrderItemV
  | .doc d =>
    match dictFind "product_id" d, dictFind "name" d,
          dictFind "price" d, dictFind "quantity" d with
    | some (.str pid), some (.str nm), some (.num pr), some (.int q) =>
      if 1 ≤ q then some ⟨pid, nm, pr, q⟩ else none
    | _, _, _, _ => none
  | _ => none

/-- Pydantic parse of a `List[OrderItem]` field value. -/
def itemsOfVal : BVal → Option (List OrderItemV)
  | .arr l => l.foldr (fun v acc =>
      match itemOfVal v, acc with
      | some i, some is => some (i :: is)
      | _, _ => none) (some [])
  | _ => none

/-- Pydantic parse of an `Optional[str]` field with default `None`:
missing or null ↦ `None`, a string ↦ itself, anything else fails. -/
def optStrField (k : String) (d : Doc) : Option (Option String) :=
  match dictFind k d with
  | none => some none
  | some .null => some none
  | some (.str s) => some (some s)
  | some _ => none

/-- Pydantic `OrderOut(**s)`: validation of a serialized document against
the `OrderOut` schema. -/
def orderOutOfDoc (d : Doc) : Option OrderOutV :=
  match dictFind "id" d, dictFind "buyer_email" d, dictFind "buyer_name" d,
        dictFind "total" d, dictFind "status" d, dictFind "items" d with
  | some (.str i), some (.str be), some (.str bn), some (.num t),
      some (.str st), some itemsv =>
    match itemsOfVal itemsv, optStrField "ign" d with
    | some its, some ig => some ⟨i, be, bn, ig, its, t, st⟩
    | _, _ => none
  | _, _, _, _, _, _ => none

/-- Pydantic `ProductOut(**s)`. -/
def productOutOfDoc (d : Doc) : Option ProductOutV :=
  match dictFind "id" d, dictFind "name" d, dictFind "price" d,
        dictFind "category" d with
  | some (.str i), some (.str nm), some (.num pr), some (.str cat) =>
    match optStrField "description" d, optStrField "image" d with
    | some de, some im => some ⟨i, nm, de, pr, cat, im⟩
    | _, _ => none
  | _, _, _, _ => none

/-- `sum(i.price * i.quantity for i in order.items)` (Python `sum`, start
0, left fold). -/
def sumTotal (items : List OrderItemV) : ℚ :=
  items.foldl (fun a i => a + i.price * (i.quantity : ℚ)) 0

/-- The `data` dict assembled by `create_order`. -/
def orderData (order : OrderCreateV) (total : ℚ) : Doc :=
  [("buyer_email", .str order.buyer_email),
   ("buyer_name", .str order.buyer_name),
   ("ign", optStrVal order.ign),
   ("items", .arr (order.items.map itemToDoc)),
   ("total", .num total),
   ("status", .str "pending")]

/-- `create_order` of `src/main.py` (`POST /api/orders`): rejects an empty
cart with a 400 before touching the store; otherwise computes the rounded
total, persists the document with status `"pending"`, re-fetches it and
returns its serialized, re-validated form; any exception in the persist
block becomes a 500. -/
def create_order (st : Store) (order : OrderCreateV) :
    Store × HResp OrderOutV :=
  if order.items.isEmpty then (st, .err 400 "Cart is empty")
  else
    let total := pyRound2 (sumTotal order.items)
    let data := orderData order total
    match create_document st "order" data with
    | .error e => (st, .err 500 e)
    | .ok (st2, order_id) =>
      match oidOfString order_id with
      | none => (st2, .err 500 "Invalid ObjectId")
      | some i =>
        match find_one st2 "order" i with
        | .error e => (st2, .err 500 e)
        | .ok none => (st2, .err 500 "NoneType is not a mapping")
        | .ok (some saved) =>
          match orderOutOfDoc (serialize_doc saved) with
          | some o => (st2, .ok o)
          | none => (st2, .err 500 "validation error")

/-- `get_order` of `src/main.py` (`GET /api/orders/{order_id}`): a
malformed identifier raises `InvalidId`, caught by the generic handler as
a 400; a store failure is likewise caught as a 400; a missing document is
a 404 (`HTTPException` is re-raised unchanged); otherwise the document is
serialized and re-validated. -/
def get_order (st : Store) (order_id : String) : HResp OrderOutV :=
  match oidOfString order_id with
  | none => .err 400 "Invalid ObjectId"
  | some i =>
    match find_one st "order" i with
    | .error e => .err 400 e
    | .ok none => .err 404 "Order not found"
    | .ok (some doc) =>
      match orderOutOfDoc (serialize_doc doc) with
      | some o => .ok o
      | none => .err 400 "validation error"

/-- `DEFAULT_PRODUCTS` of `src/main.py` (prices as exact rationals). -/
def DEFAULT_PRODUCTS : List Doc :=
  [[("name", .str "Diamond Sword"),
    ("description", .str "Sharp V ready! Deal massive damage."),
    ("price", .num (1299 / 100)),
    ("category", .str "Weapons"),
    ("image", .str "/items/diamond_sword.png")],
   [("name", .str "Enchanted Pickaxe"),
    ("description", .str "Efficiency V, Unbreaking III."),
    ("price", .num (1049 / 100)),
    ("category", .str "Tools"),
    ("image", .str "/items/enchanted_pickaxe.png")],
   [("name", .str "Netherite Armor Set"),
    ("description", .str "Full protection for endgame raiding."),
    ("price", .num (3999 / 100)),
    ("category", .str "Armor"),
    ("image", .str "/items/netherite_armor.png")],
   [("name", .str "VIP Rank (30 Days)"),
    ("description", .str "Perks: /fly, kits, queue skip."),
    ("price", .num (1499 / 100)),
    ("category", .str "Ranks"),
    ("image", .str "/items/vip_rank.png")]]

/-- `ensure_seed_products` of `src/main.py`: a no-op when `db` is `None`;
otherwise, when the product collection counts zero documents, inserts the
four default products (each extended with null timestamps). -/
def ensure_seed_products (st : Store) : Except String Store :=
  if st.dbNone then .ok st
  else
    match count_documents st "product" with
    | .error e => .error e
    | .ok n =>
      if n = 0 then
        insert_many st "product"
          (DEFAULT_PRODUCTS.map
            (fun p => p ++ [("created_at", .null), ("updated_at", .null)]))
      else .ok st

/-- Serialize and validate each product document. -/
def productsOf : List Doc → Option (List ProductOutV)
  | [] => some []
  | d :: rest =>
    match productOutOfDoc (serialize_doc d), productsOf rest with
    | some p, some ps => some (p :: ps)
    | _, _ => none

/-- `list_products` of `src/main.py` (`GET /api/products`): seeds if
needed, returns every product document serialized; any exception becomes
a 500. -/
def list_products (st : Store) : Store × HResp (List ProductOutV) :=
  match ensure_seed_products st with
  | .error e => (st, .err 500 e)
  | .ok st1 =>
    match get_documents st1 "product" with
    | .error e => (st1, .err 500 e)
    | .ok docs =>
      match productsOf docs with
      | some ps => (st1, .ok ps)
      | none => (st1, .err 500 "validation error")

/-- The process environment variables consulted by the `/test` endpoint. -/
structure Env where
  database_url : Option String
  database_name : Option String

/-- The diagnostic response object of `GET /test`. -/
structure TestResp where
  backend : String
  database : String
  database_url : Option String
  database_name : Option String
  connection_status : String
  collections : List String
deriving DecidableEq

/-- `test_database` of `src/main.py` (`GET /test`): builds a diagnostic
object; a failure of `list_collection_names` is caught by the inner
handler and reported inline (truncated to 50 characters), never raised;
at most the first 10 collection names are reported. -/
def test_database (st : Store) (env : Env) : TestResp :=
  let base : TestResp :=
    { backend := "✅ Running", database := "❌ Not Available",
      database_url := none, database_name := none,
      connection_status := "Not Connected", collections := [] }
  if st.dbNone then { base with database := "⚠️  Available but not initialized" }
  else
    let r1 := { base with
      database := "✅ Available",
      database_url := some (if env.database_url.isSome then "✅ Set" else "❌ Not Set"),
      database_name := some (match env.database_name with
        | some n => n
        | none => "❌ Not Set") }
    match list_collection_names st with
    | .ok cols =>
      { r1 with collections := cols.take 10, database := "✅ Connected & Working" }
    | .error e =>
      { r1 with database := "⚠️  Connected but Error: " ++ e.take 50 }

/-- Freshness invariant of the store: every stored document's `_id` is
below the fresh-identifier counter (true of every store the code builds,
since identifiers are generated from the counter). -/
def storeWF (st : Store) : Prop :=
  ∀ c d, d ∈ getColl st c → ∀ j, dictFind "_id" d = some (.oid j) → j < st.nextId

/-- Map a transformation over every value of a document, keys untouched. -/
def mapVals (f : BVal → BVal) (d : Doc) : Doc :=
  d.map (fun kv => (kv.1, f kv.2))

mutual

/-- Modelled from C9's words, for comparison with `transformVal`: a value
changes only by converting store identifiers to strings — directly, directly
inside list values, and inside nested dict values — with every key of a
nested dict preserved. -/
def claimConvVal : BVal → BVal
  | .oid n => .str (pyObjStr n)
  | .arr l => .arr (l.map convElem)
  | .doc m => .doc (claimConvDoc m)
  | v => v
termination_by v => 2 * sizeOf v

/-- Modelled from C9's words: convert identifiers inside a nested dict,
preserving every key. -/
def claimConvDoc : Doc → Doc
  | [] => []
  | (k, v) :: rest => (k, claimConvVal v) :: claimConvDoc rest
termination_by d => 2 * sizeOf d

end

/-- Modelled from C9's words, for comparison with `serialize_doc`: remove
the `"_id"` key, add an `"id"` key holding its string form when `"_id"`
was present, preserve every other key, and change values only by the
identifier-to-string conversion; a falsy input is returned unchanged. -/
def claimSerialize (d : Doc) : Doc :=
  if d.isEmpty then d
  else
    let core := mapVals claimConvVal (d.eraseP (fun kv => kv.1 == "_id"))
    match dictFind "_id" d with
    | some v => dictSet "id" (.str (pyStr v)) core
    | none => core

/-- The store and order used by concrete witnesses: a reachable, empty
store and a two-item cart with subtotals 10×2 and 5×1. -/
def exStore : Store := ⟨[], 0, false, false⟩

def exOrder2 : OrderCreateV :=
  ⟨"alice@example.com", "Alice", none,
   [⟨"p1", "Diamond Sword", 10, 2⟩, ⟨"p2", "Enchanted Pickaxe", 5, 1⟩], none⟩

def exOrderEmpty : OrderCreateV := ⟨"bob@example.com", "Bob", none, [], none⟩

/-- The failing (unreachable) store used by counterexamples. -/
def exStoreFail : Store := ⟨[], 0, false, true⟩

/-- The four catalog documents as `insert_many` stores them when seeding
from an empty collection whose store counter is `n`. -/
def seededProducts (n : Nat) : List Doc :=
  ((DEFAULT_PRODUCTS.map
    (fun p => p ++ [("created_at", BVal.null), ("updated_at", BVal.null)])).enum).map
    (fun p => ("_id", BVal.oid (n + p.1)) :: p.2)

/-- The environment used by concrete witnesses. -/
def exEnv : Env := ⟨none, none⟩

theorem digitVal_digitChar {d : Nat} (h : d < 10) :
    digitVal (digitChar d) = d := by
  interval_cases d <;> rfl

theorem isDigitChar_digitChar {d : Nat} (h : d < 10) :
    isDigitChar (digitChar d) = true := by
  interval_cases d <;> rfl

theorem toDigits_ne_nil (n : Nat) : toDigits n ≠ [] := by
  rw [toDigits]
  split <;> simp

theorem toDigits_all_digit (n : Nat) :
    (toDigits n).all isDigitChar = true := by
  induction n using Nat.strong_induction_on with
  | _ n ih =>
    rw [toDigits]
    split
    · simpa using isDigitChar_digitChar (by omega)
    · rename_i h
      have hd : n / 10 < n := Nat.div_lt_self (by omega) (by omega)
      simp only [List.all_append, List.all_cons, List.all_nil, Bool.and_true,
        Bool.and_eq_true]
      exact ⟨ih _ hd, isDigitChar_digitChar (Nat.mod_lt _ (by omega))⟩

theorem foldl_toDigits (n : Nat) : ∀ acc : Nat,
    (toDigits n).foldl (fun a c => a * 10 + digitVal c) acc =
      acc * 10 ^ (toDigits n).length + n := by
  induction n using Nat.strong_induction_on with
  | _ n ih =>
    intro acc
    rw [toDigits]
    split
    · rename_i h
      simp [digitVal_digitChar h]
    · rename_i h
      have hd : n / 10 < n := Nat.div_lt_self (by omega) (by omega)
      rw [List.foldl_append]
      simp only [List.foldl_cons, List.foldl_nil, List.length_append,
        List.length_cons, List.length_nil]
      rw [ih _ hd]
      rw [digitVal_digitChar (Nat.mod_lt _ (by omega))]
      have : acc * 10 ^ ((toDigits (n / 10)).length + (0 + 1)) =
          acc * 10 ^ (toDigits (n / 10)).length * 10 := by ring
      rw [this]
      have := Nat.div_add_mod n 10
      omega

/-- The identifier codec round-trips: parsing the printed form of an
identifier recovers it. -/
theorem oidOfString_pyObjStr (n : Nat) : oidOfString (pyObjStr n) = some n := by
  unfold oidOfString pyObjStr
  simp only [String.data]
  rw [if_neg (by simpa using toDigits_ne_nil n),
    if_pos (toDigits_all_digit n)]
  simpa using foldl_toDigits n 0

theorem ratFloor_eq (q : ℚ) : ratFloor q = ⌊q⌋ := by
  unfold ratFloor
  rw [Rat.floor_def]
  exact Int.fdiv_eq_ediv _ (Int.natCast_nonneg _)

theorem pyRoundInt_intCast (z : ℤ) : pyRoundInt (z : ℚ) = z := by
  unfold pyRoundInt
  rw [ratFloor_eq, Int.floor_intCast]
  norm_num

theorem pyRound2_intLike (q : ℚ) (z : ℤ) (h : q * 100 = (z : ℚ)) :
    pyRound2 q = (z : ℚ) / 100 := by
  unfold pyRound2
  rw [h, pyRoundInt_intCast]

theorem convElem_itemToDoc (i : OrderItemV) : convElem (itemToDoc i) = itemToDoc i := rfl

theorem itemOfVal_itemToDoc (i : OrderItemV) (h : 1 ≤ i.quantity) :
    itemOfVal (itemToDoc i) = some i := by
  simp [itemOfVal, itemToDoc, dictFind, h]

theorem itemsOfVal_map (l : List OrderItemV) (h : ∀ i ∈ l, 1 ≤ i.quantity) :
    itemsOfVal (.arr (l.map itemToDoc)) = some l := by
  induction l with
  | nil => simp [itemsOfVal]
  | cons a t ih =>
    have ha : 1 ≤ a.quantity := h a (by simp)
    have ht := ih (fun i hi => h i (by simp [hi]))
    simp only [itemsOfVal, List.map_cons, List.foldr_cons] at ht ⊢
    rw [itemOfVal_itemToDoc a ha, ht]

theorem find?_collSet (c : String) (ds : List Doc)
    (l : List (String × List Doc)) :
    List.find? (fun p => p.1 == c) (collSet c ds l) = some (c, ds) := by
  induction l with
  | nil => simp [collSet]
  | cons a t ih =>
    obtain ⟨k, v⟩ := a
    by_cases hk : k = c
    · simp [collSet, hk]
    · simp [collSet, hk, ih]

theorem getColl_collSet (colls : List (String × List Doc)) (c : String)
    (ds : List Doc) (n : Nat) (b1 b2 : Bool) :
    getColl ⟨collSet c ds colls, n, b1, b2⟩ c = ds := by
  simp [getColl, find?_collSet]

theorem find?_append_single (l : List Doc) (p : Doc → Bool) (d0 : Doc)
    (h : ∀ d ∈ l, p d = false) (h0 : p d0 = true) :
    (l ++ [d0]).find? p = some d0 := by
  induction l with
  | nil => simp [List.find?, h0]
  | cons a t ih =>
    rw [List.cons_append, List.find?_cons_of_neg _ (by simp [h a (by simp)])]
    exact ih (fun d hd => h d (by simp [hd]))

theorem hasIdB_iff (i : Nat) (d : Doc) :
    hasIdB i d = true ↔ dictFind "_id" d = some (.oid i) := by
  unfold hasIdB
  cases h : dictFind "_id" d with
  | none => simp
  | some v => cases v <;> simp

theorem fresh_not_found (st : Store) (hWF : storeWF st) (c : String) :
    ∀ d ∈ getColl st c, hasIdB st.nextId d = false := by
  intro d hd
  cases h : hasIdB st.nextId d with
  | false => rfl
  | true =>
    exact absurd (hWF c d hd st.nextId ((hasIdB_iff _ _).1 h)) (by omega)

theorem mapValsPop_true (d : Doc) : mapValsPop true d = mapVals transformVal d := by
  induction d with
  | nil => simp [mapValsPop, mapVals]
  | cons a t ih =>
    obtain ⟨k, v⟩ := a
    simp [mapValsPop, mapVals, ih]

theorem transformVal_optStrVal (x : Option String) :
    transformVal (optStrVal x) = optStrVal x := by
  cases x <;> simp [optStrVal, transformVal]

theorem optStrField_of_find (d : Doc) (k : String) (x : Option String)
    (h : dictFind k d = some (optStrVal x)) : optStrField k d = some x := by
  cases x <;> simp_all [optStrField, optStrVal]

theorem serialize_order_doc (i : Nat) (order : OrderCreateV) (total : ℚ) :
    serialize_doc (("_id", .oid i) :: orderData order total) =
      [("buyer_email", .str order.buyer_email),
       ("buyer_name", .str order.buyer_name),
       ("ign", optStrVal order.ign),
       ("items", .arr (order.items.map itemToDoc)),
       ("total", .num total),
       ("status", .str "pending"),
       ("id", .str (pyObjStr i))] := by
  simp [serialize_doc, orderData, mapValsPop, mapValsPop_true, mapVals,
    transformVal, transformVal_optStrVal, dictFind, dictSet, pyStr,
    List.map_map, Function.comp, convElem_itemToDoc]

theorem orderOutOfDoc_serialized (i : Nat) (order : OrderCreateV) (total : ℚ)
    (hval : validReq order) :
    orderOutOfDoc
      [("buyer_email", .str order.buyer_email),
       ("buyer_name", .str order.buyer_name),
       ("ign", optStrVal order.ign),
       ("items", .arr (order.items.map itemToDoc)),
       ("total", .num total),
       ("status", .str "pending"),
       ("id", .str (pyObjStr i))] =
      some { id := pyObjStr i, buyer_email := order.buyer_email,
             buyer_name := order.buyer_name, ign := order.ign,
             items := order.items, total := total, status := "pending" } := by
  have hitems := itemsOfVal_map order.items hval
  have hign : optStrField "ign"
      [("buyer_email", .str order.buyer_email),
       ("buyer_name", .str order.buyer_name),
       ("ign", optStrVal order.ign),
       ("items", .arr (order.items.map itemToDoc)),
       ("total", .num total),
       ("status", .str "pending"),
       ("id", .str (pyObjStr i))] = some order.ign :=
    optStrField_of_find _ _ _ (by simp [dictFind])
  simp [orderOutOfDoc, dictFind, hitems, hign]

theorem create_order_eq (st : Store) (order : OrderCreateV)
    (hdown : storeDown st = false) (hWF : storeWF st)
    (hval : validReq order) (hne : order.items ≠ []) :
    create_order st order =
      ({ st with
          colls := collSet "order"
            (getColl st "order" ++
              [("_id", .oid st.nextId) ::
                orderData order (pyRound2 (sumTotal order.items))]) st.colls,
          nextId := st.nextId + 1 },
       .ok { id := pyObjStr st.nextId, buyer_email := order.buyer_email,
             buyer_name := order.buyer_name, ign := order.ign,
             items := order.items,
             total := pyRound2 (sumTotal order.items), status := "pending" }) := by
  obtain ⟨colls, n, b1, b2⟩ := st
  have hne' : order.items.isEmpty = false := by
    simp [List.isEmpty_iff, hne]
  have hcd : create_document ⟨colls, n, b1, b2⟩ "order"
      (orderData order (pyRound2 (sumTotal order.items))) =
      .ok (⟨collSet "order"
              (getColl ⟨colls, n, b1, b2⟩ "order" ++
                [("_id", .oid n) ::
                  orderData order (pyRound2 (sumTotal order.items))]) colls,
            n + 1, b1, b2⟩, pyObjStr n) := by
    simp [create_document, hdown]
  have hdown2 : storeDown ⟨collSet "order"
      (getColl ⟨colls, n, b1, b2⟩ "order" ++
        [("_id", .oid n) ::
          orderData order (pyRound2 (sumTotal order.items))]) colls,
      n + 1, b1, b2⟩ = false := hdown
  have hfo : find_one ⟨collSet "order"
      (getColl ⟨colls, n, b1, b2⟩ "order" ++
        [("_id", .oid n) ::
          orderData order (pyRound2 (sumTotal order.items))]) colls,
      n + 1, b1, b2⟩ "order" n =
      .ok (some (("_id", .oid n) ::
        orderData order (pyRound2 (sumTotal order.items)))) := by
    simp only [find_one, hdown2, Bool.false_eq_true, if_false, getColl_collSet]
    rw [find?_append_single _ _ _
      (fresh_not_found ⟨colls, n, b1, b2⟩ hWF "order")
      (by simp [hasIdB, dictFind])]
  simp [create_order, hne', hcd, oidOfString_pyObjStr, hfo,
    serialize_order_doc, orderOutOfDoc_serialized _ _ _ hval]

theorem getColl_update (st : Store) (c : String) (ds : List Doc) :
    getColl { st with colls := collSet c ds st.colls, nextId := st.nextId + 1 } c = ds := by
  obtain ⟨colls, n, b1, b2⟩ := st
  exact getColl_collSet colls c ds (n + 1) b1 b2

theorem get_order_found (st : Store) (s : String) (i : Nat) (d : Doc)
    (hoid : oidOfString s = some i) (hdown : storeDown st = false)
    (hfind : (getColl st "order").find? (hasIdB i) = some d) :
    get_order st s =
      (match orderOutOfDoc (serialize_doc d) with
        | some o => .ok o
        | none => .err 400 "validation error") := by
  simp [get_order, hoid, find_one, hdown, hfind]

theorem storeWF_exStore : storeWF exStore := by
  intro c d hd j _
  simp [exStore, getColl] at hd

theorem pyRound2_exOrder2 : pyRound2 (sumTotal exOrder2.items) = 25 := by
  have h : sumTotal exOrder2.items = 25 := by norm_num [sumTotal, exOrder2]
  rw [h, pyRound2_intLike 25 2500 (by norm_num)]
  norm_num

/-- C1: an accepted order-creation request (non-empty items) stores and
returns a total equal to the rounded sum over the items of price times
quantity. -/
theorem C1_total_rounded_sum (st : Store) (order : OrderCreateV)
    (hdown : storeDown st = false) (hWF : storeWF st)
    (hval : validReq order) (hne : order.items ≠ []) :
    ∃ st' o d,
      create_order st order = (st', .ok o) ∧
      o.total = pyRound2 (sumTotal order.items) ∧
      getColl st' "order" = getColl st "order" ++ [d] ∧
      dictFind "total" d = some (.num (pyRound2 (sumTotal order.items))) := by
  refine ⟨_, _, _, create_order_eq st order hdown hWF hval hne, rfl, getColl_update st "order" _, ?_⟩
  simp [orderData, dictFind]

/-- C1 witness: for items with price 10 quantity 2 and price 5 quantity 1
the stored and returned total is 25. -/
theorem C1_total_rounded_sum_witness :
    storeDown exStore = false ∧ validReq exOrder2 ∧ exOrder2.items ≠ [] ∧
    pyRound2 (sumTotal exOrder2.items) = 25 ∧
    (∃ st' o d,
      create_order exStore exOrder2 = (st', .ok o) ∧
      o.total = pyRound2 (sumTotal exOrder2.items) ∧
      getColl st' "order" = getColl exStore "order" ++ [d] ∧
      dictFind "total" d = some (.num (pyRound2 (sumTotal exOrder2.items)))) :=
  ⟨by decide, by decide, by decide, pyRound2_exOrder2,
   C1_total_rounded_sum exStore exOrder2 (by decide) storeWF_exStore
     (by decide) (by decide)⟩

/-- C2: a request whose items array is empty gets a 400 and leaves the
store unchanged. -/
theorem C2_empty_cart_rejected (st : Store) (order : OrderCreateV)
    (h : order.items = []) :
    create_order st order = (st, .err 400 "Cart is empty") := by
  simp [create_order, h]

/-- C2 witness at a concrete store and empty cart. -/
theorem C2_empty_cart_rejected_witness :
    exOrderEmpty.items = [] ∧
    create_order exStore exOrderEmpty = (exStore, .err 400 "Cart is empty") :=
  ⟨rfl, C2_empty_cart_rejected exStore exOrderEmpty rfl⟩

/-- C8: a created order is persisted with status `"pending"` and the
creation response reports status `"pending"`. -/
theorem C8_status_pending (st : Store) (order : OrderCreateV)
    (hdown : storeDown st = false) (hWF : storeWF st)
    (hval : validReq order) (hne : order.items ≠ []) :
    ∃ st' o d,
      create_order st order = (st', .ok o) ∧
      o.status = "pending" ∧
      getColl st' "order" = getColl st "order" ++ [d] ∧
      dictFind "status" d = some (.str "pending") := by
  refine ⟨_, _, _, create_order_eq st order hdown hWF hval hne, rfl, getColl_update st "order" _, ?_⟩
  simp [orderData, dictFind]

/-- C8 witness at a concrete store and cart. -/
theorem C8_status_pending_witness :
    storeDown exStore = false ∧ validReq exOrder2 ∧ exOrder2.items ≠ [] ∧
    (∃ st' o d,
      create_order exStore exOrder2 = (st', .ok o) ∧
      o.status = "pending" ∧
      getColl st' "order" = getColl exStore "order" ++ [d] ∧
      dictFind "status" d = some (.str "pending")) :=
  ⟨by decide, by decide, by decide,
   C8_status_pending exStore exOrder2 (by decide) storeWF_exStore
     (by decide) (by decide)⟩

/-- C4: creating an order and then fetching it by the returned id yields
the same item list and total. -/
theorem C4_create_then_get (st : Store) (order : OrderCreateV)
    (hdown : storeDown st = false) (hWF : storeWF st)
    (hval : validReq order) (hne : order.items ≠ []) :
    ∃ st' o,
      create_order st order = (st', .ok o) ∧
      ∃ o', get_order st' o.id = .ok o' ∧
        o'.items = o.items ∧ o'.total = o.total := by
  refine ⟨_, _, create_order_eq st order hdown hWF hval hne, ?_⟩
  obtain ⟨colls, n, b1, b2⟩ := st
  dsimp only
  have hdown2 : storeDown ⟨collSet "order"
      (getColl ⟨colls, n, b1, b2⟩ "order" ++
        [("_id", .oid n) :: orderData order (pyRound2 (sumTotal order.items))])
      colls, n + 1, b1, b2⟩ = false := hdown
  have hfind : (getColl (⟨collSet "order"
      (getColl ⟨colls, n, b1, b2⟩ "order" ++
        [("_id", .oid n) :: orderData order (pyRound2 (sumTotal order.items))])
      colls, n + 1, b1, b2⟩ : Store) "order").find? (hasIdB n) =
      some (("_id", .oid n) :: orderData order (pyRound2 (sumTotal order.items))) := by
    rw [getColl_collSet]
    exact find?_append_single _ _ _
      (fresh_not_found ⟨colls, n, b1, b2⟩ hWF "order")
      (by simp [hasIdB, dictFind])
  have hgo : get_order (⟨collSet "order"
      (getColl ⟨colls, n, b1, b2⟩ "order" ++
        [("_id", .oid n) :: orderData order (pyRound2 (sumTotal order.items))])
      colls, n + 1, b1, b2⟩ : Store) (pyObjStr n) =
      .ok { id := pyObjStr n, buyer_email := order.buyer_email,
            buyer_name := order.buyer_name, ign := order.ign,
            items := order.items,
            total := pyRound2 (sumTotal order.items), status := "pending" } := by
    rw [get_order_found _ _ n
      (("_id", .oid n) :: orderData order (pyRound2 (sumTotal order.items)))
      (oidOfString_pyObjStr n) hdown2 hfind]
    rw [serialize_order_doc, orderOutOfDoc_serialized _ _ _ hval]
  exact ⟨_, hgo, rfl, rfl⟩

/-- C4 witness at a concrete store and cart. -/
theorem C4_create_then_get_witness :
    storeDown exStore = false ∧ validReq exOrder2 ∧ exOrder2.items ≠ [] ∧
    (∃ st' o,
      create_order exStore exOrder2 = (st', .ok o) ∧
      ∃ o', get_order st' o.id = .ok o' ∧
        o'.items = o.items ∧ o'.total = o.total) :=
  ⟨by decide, by decide, by decide,
   C4_create_then_get exStore exOrder2 (by decide) storeWF_exStore
     (by decide) (by decide)⟩

/-- C6: a well-formed identifier matching no stored order yields a 404. -/
theorem C6_missing_order_404 (st : Store) (s : String) (i : Nat)
    (hdown : storeDown st = false) (hoid : oidOfString s = some i)
    (hmiss : ∀ d ∈ getColl st "order", hasIdB i d = false) :
    get_order st s = .err 404 "Order not found" := by
  have hfind : (getColl st "order").find? (hasIdB i) = none :=
    List.find?_eq_none.2 (fun d hd => by simp [hmiss d hd])
  simp [get_order, hoid, find_one, hdown, hfind]

/-- C6 witness: a valid but absent identifier on an empty store. -/
theorem C6_missing_order_404_witness :
    storeDown exStore = false ∧ oidOfString "5" = some 5 ∧
    get_order exStore "5" = .err 404 "Order not found" :=
  ⟨by decide, by decide,
   C6_missing_order_404 exStore "5" 5 (by decide) (by decide)
     (fun d hd => absurd hd (by simp [exStore, getColl]))⟩

/-- C7: a malformed identifier yields a 400 with a message, not a crash or
a 5xx. -/
theorem C7_malformed_id_400 (st : Store) (s : String)
    (hbad : oidOfString s = none) :
    get_order st s = .err 400 "Invalid ObjectId" := by
  simp [get_order, hbad]

/-- C7 witness: the malformed identifier `"abc"` on any store state. -/
theorem C7_malformed_id_400_witness :
    oidOfString "abc" = none ∧
    get_order exStore "abc" = .err 400 "Invalid ObjectId" ∧ 400 < 500 :=
  ⟨by decide, C7_malformed_id_400 exStore "abc" (by decide), by decide⟩

/-- C5 counterexample: on order lookup a store failure is surfaced as a
400 client error, not a 5xx server error as the claim states. -/
theorem C5_counterexample_lookup_400 :
    get_order exStoreFail "5" = .err 400 "store unreachable" ∧ 400 < 500 := by
  constructor
  · simp [get_order, oidOfString, find_one, storeDown, exStoreFail, isDigitChar,
      digitVal]
  · decide

/-- C5 amended: store errors are surfaced as a 500 with a message by order
creation and product listing, but order lookup surfaces them as a 400 with
a message. -/
theorem C5_store_errors_surfaced (st : Store) (h : st.failing = true) :
    (∀ order : OrderCreateV, order.items ≠ [] →
      (create_order st order).2 = .err 500 "store unreachable") ∧
    (list_products st).2 = .err 500 "store unreachable" ∧
    (∀ s i, oidOfString s = some i →
      get_order st s = .err 400 "store unreachable") := by
  have hsd : storeDown st = true := by simp [storeDown, h]
  refine ⟨?_, ?_, ?_⟩
  · intro order hne
    have hne' : order.items.isEmpty = false := by simp [List.isEmpty_iff, hne]
    simp [create_order, hne', create_document, hsd]
  · cases hdb : st.dbNone with
    | true => simp [list_products, ensure_seed_products, hdb, get_documents, hsd]
    | false => simp [list_products, ensure_seed_products, hdb, count_documents, hsd]
  · intro s i hs
    simp [get_order, hs, find_one, hsd]

/-- C5 amended witness: all three endpoints at a concrete failing store. -/
theorem C5_store_errors_surfaced_witness :
    exStoreFail.failing = true ∧
    (create_order exStoreFail exOrder2).2 = .err 500 "store unreachable" ∧
    (list_products exStoreFail).2 = .err 500 "store unreachable" ∧
    get_order exStoreFail "7" = .err 400 "store unreachable" :=
  ⟨rfl,
   (C5_store_errors_surfaced exStoreFail rfl).1 exOrder2 (by decide),
   (C5_store_errors_surfaced exStoreFail rfl).2.1,
   (C5_store_errors_surfaced exStoreFail rfl).2.2 "7" 7 (by decide)⟩

theorem seededProducts_length (n : Nat) : (seededProducts n).length = 4 := by
  simp [seededProducts, DEFAULT_PRODUCTS]

/-- C3: with an empty product collection, listing products seeds exactly
the four catalog entries, and listing again changes the store in no way
(in particular it inserts nothing). -/
theorem C3_seed_exactly_once (st : Store)
    (hdb : st.dbNone = false) (hfail : st.failing = false)
    (hempty : getColl st "product" = []) :
    getColl (list_products st).1 "product" = seededProducts st.nextId ∧
    (seededProducts st.nextId).length = 4 ∧
    (list_products (list_products st).1).1 = (list_products st).1 := by
  obtain ⟨colls, n, b1, b2⟩ := st
  simp only at hdb hfail hempty ⊢
  subst hdb hfail
  have hsd : storeDown ⟨colls, n, false, false⟩ = false := rfl
  have hens : ensure_seed_products ⟨colls, n, false, false⟩ =
      .ok ⟨collSet "product" (seededProducts n) colls, n + 4, false, false⟩ := by
    simp [ensure_seed_products, count_documents, hsd, hempty,
      insert_many, seededProducts, DEFAULT_PRODUCTS]
  have hsd1 : storeDown ⟨collSet "product" (seededProducts n) colls,
      n + 4, false, false⟩ = false := rfl
  have hg1 : getColl (⟨collSet "product" (seededProducts n) colls,
      n + 4, false, false⟩ : Store) "product" = seededProducts n := by
    rw [getColl_collSet]
  have hlp : (list_products ⟨colls, n, false, false⟩).1 =
      ⟨collSet "product" (seededProducts n) colls, n + 4, false, false⟩ := by
    simp only [list_products, hens, get_documents, hsd1, Bool.false_eq_true,
      if_false]
    cases productsOf (getColl (⟨collSet "product" (seededProducts n) colls,
        n + 4, false, false⟩ : Store) "product") <;> rfl
  rw [hlp]
  refine ⟨hg1, seededProducts_length n, ?_⟩
  have hcnt : count_documents ⟨collSet "product" (seededProducts n) colls,
      n + 4, false, false⟩ "product" = .ok 4 := by
    simp [count_documents, hsd1, hg1, seededProducts_length]
  have hens2 : ensure_seed_products ⟨collSet "product" (seededProducts n) colls,
      n + 4, false, false⟩ =
      .ok ⟨collSet "product" (seededProducts n) colls, n + 4, false, false⟩ := by
    simp [ensure_seed_products, hcnt]
  simp only [list_products, hens2, get_documents, hsd1, Bool.false_eq_true,
    if_false]
  cases productsOf (getColl (⟨collSet "product" (seededProducts n) colls,
      n + 4, false, false⟩ : Store) "product") <;> rfl

/-- C3 witness at the concrete empty store. -/
theorem C3_seed_exactly_once_witness :
    exStore.dbNone = false ∧ exStore.failing = false ∧
    getColl exStore "product" = [] ∧
    (getColl (list_products exStore).1 "product" = seededProducts exStore.nextId ∧
     (seededProducts exStore.nextId).length = 4 ∧
     (list_products (list_products exStore).1).1 = (list_products exStore).1) :=
  ⟨rfl, rfl, rfl, C3_seed_exactly_once exStore rfl rfl rfl⟩

theorem dictFind_mapVals (f : BVal → BVal) (k : String) (d : Doc) :
    dictFind k (mapVals f d) = (dictFind k d).map f := by
  induction d with
  | nil => rfl
  | cons a t ih =>
    obtain ⟨k', v⟩ := a
    simp only [mapVals] at ih
    by_cases hk : k' = k <;> simp [mapVals, dictFind, hk, ih]

theorem dictFind_mapValsPop_ne (k : String) (hk : k ≠ "_id") (d : Doc) :
    dictFind k (mapValsPop false d) = (dictFind k d).map transformVal := by
  induction d with
  | nil => simp [mapValsPop, dictFind]
  | cons a t ih =>
    obtain ⟨k', v⟩ := a
    by_cases hid : k' = "_id"
    · subst hid
      rw [show mapValsPop false (("_id", v) :: t) = mapValsPop true t by
        simp [mapValsPop]]
      rw [mapValsPop_true, dictFind_mapVals]
      simp [dictFind, Ne.symm hk]
    · rw [show mapValsPop false ((k', v) :: t) =
        (k', transformVal v) :: mapValsPop false t by simp [mapValsPop, hid]]
      by_cases hk' : k' = k <;> simp [dictFind, hk', ih]

theorem dictFind_none_of_not_mem (k : String) (d : Doc)
    (h : k ∉ d.map Prod.fst) : dictFind k d = none := by
  induction d with
  | nil => rfl
  | cons a t ih =>
    obtain ⟨k', v⟩ := a
    simp only [List.map_cons, List.mem_cons] at h
    push_neg at h
    simp [dictFind, Ne.symm h.1, ih h.2]

theorem dictFind_mapValsPop_id (d : Doc) (hnd : (d.map Prod.fst).Nodup) :
    dictFind "_id" (mapValsPop false d) = none := by
  induction d with
  | nil => simp [mapValsPop, dictFind]
  | cons a t ih =>
    obtain ⟨k', v⟩ := a
    simp only [List.map_cons, List.nodup_cons] at hnd
    by_cases hid : k' = "_id"
    · subst hid
      rw [show mapValsPop false (("_id", v) :: t) = mapValsPop true t by
        simp [mapValsPop]]
      rw [mapValsPop_true, dictFind_mapVals,
        dictFind_none_of_not_mem _ _ hnd.1]
      rfl
    · rw [show mapValsPop false ((k', v) :: t) =
        (k', transformVal v) :: mapValsPop false t by simp [mapValsPop, hid]]
      simp [dictFind, hid, ih hnd.2]

theorem dictFind_dictSet_self (k : String) (v : BVal) (d : Doc) :
    dictFind k (dictSet k v d) = some v := by
  induction d with
  | nil => simp [dictSet, dictFind]
  | cons a t ih =>
    obtain ⟨k', v'⟩ := a
    by_cases hk : k' = k <;> simp [dictSet, dictFind, hk, ih]

theorem dictFind_dictSet_ne (k k' : String) (hk : k' ≠ k) (v : BVal) (d : Doc) :
    dictFind k' (dictSet k v d) = dictFind k' d := by
  induction d with
  | nil => simp [dictSet, dictFind, Ne.symm hk]
  | cons a t ih =>
    obtain ⟨k'', v'⟩ := a
    by_cases hk2 : k'' = k
    · subst hk2
      simp [dictSet, dictFind, Ne.symm hk, hk]
    · by_cases hk3 : k'' = k' <;> simp [dictSet, dictFind, hk, hk2, hk3, ih]

theorem serialize_doc_unfold (d : Doc) (hne : d.isEmpty = false) :
    serialize_doc d =
      (match dictFind "_id" d with
        | some .null => mapValsPop false d
        | some v => dictSet "id" (.str (pyStr v)) (mapValsPop false d)
        | none => mapValsPop false d) := by
  rw [serialize_doc, hne]
  simp

theorem serialize_doc_nonnull (d : Doc) (v : BVal)
    (h : dictFind "_id" d = some v) (hv : v ≠ .null)
    (hne : d.isEmpty = false) :
    serialize_doc d = dictSet "id" (.str (pyStr v)) (mapValsPop false d) := by
  rw [serialize_doc_unfold d hne, h]
  cases v <;> simp_all

theorem serialize_doc_nullish (d : Doc)
    (h : dictFind "_id" d = none ∨ dictFind "_id" d = some .null)
    (hne : d.isEmpty = false) :
    serialize_doc d = mapValsPop false d := by
  rcases h with h | h <;> rw [serialize_doc_unfold d hne, h]

/-- C9 counterexample: on `{"a": {"_id": oid}}` the function renames the
nested `"_id"` key to `"id"`, so it does not merely convert identifiers
to strings inside nested dict values as the claim states. -/
theorem C9_counterexample_nested_id :
    serialize_doc [("a", .doc [("_id", .oid 5)])] ≠
      claimSerialize [("a", .doc [("_id", .oid 5)])] := by
  have h1 : serialize_doc [("a", .doc [("_id", .oid 5)])] =
      [("a", .doc [("id", .str "5")])] := by
    simp [serialize_doc, mapValsPop, transformVal, dictFind, dictSet, pyStr,
      pyObjStr, toDigits, digitChar]
  have h2 : claimSerialize [("a", .doc [("_id", .oid 5)])] =
      [("a", .doc [("_id", .str "5")])] := by
    simp [claimSerialize, mapVals, claimConvVal, claimConvDoc, dictFind,
      pyStr, pyObjStr, toDigits, digitChar, List.eraseP]
  rw [h1, h2]
  simp

/-- C9 amended: for a non-empty document with distinct keys,
`serialize_doc` removes the top-level `"_id"`; when `"_id"` held a
non-null value it sets `"id"` to its string form; every other key is kept
with its value transformed — identifiers to strings, identifiers directly
inside lists to strings, and nested dicts recursively serialized by the
same function (hence nested `"_id"` keys are renamed as well); an empty
document is returned unchanged. -/
theorem C9_serialize_characterization (d : Doc)
    (hnd : (d.map Prod.fst).Nodup) (hne : d ≠ []) :
    dictFind "_id" (serialize_doc d) = none ∧
    (∀ v, dictFind "_id" d = some v → v ≠ .null →
      dictFind "id" (serialize_doc d) = some (.str (pyStr v))) ∧
    (dictFind "_id" d = none ∨ dictFind "_id" d = some .null →
      dictFind "id" (serialize_doc d) = (dictFind "id" d).map transformVal) ∧
    (∀ k, k ≠ "_id" → k ≠ "id" →
      dictFind k (serialize_doc d) = (dictFind k d).map transformVal) ∧
    serialize_doc ([] : Doc) = [] := by
  have hne' : d.isEmpty = false := by simpa [List.isEmpty_iff] using hne
  rcases h : dictFind "_id" d with _ | v
  · have hs := serialize_doc_nullish d (Or.inl h) hne'
    rw [hs]
    refine ⟨dictFind_mapValsPop_id d hnd, ?_, ?_, ?_, by simp [serialize_doc]⟩
    · intro v hv
      exact absurd hv (by simp)
    · intro _
      exact dictFind_mapValsPop_ne "id" (by decide) d
    · intro k hk1 _
      exact dictFind_mapValsPop_ne k hk1 d
  · by_cases hv : v = .null
    · subst hv
      have hs := serialize_doc_nullish d (Or.inr h) hne'
      rw [hs]
      refine ⟨dictFind_mapValsPop_id d hnd, ?_, ?_, ?_, by simp [serialize_doc]⟩
      · intro v' hv' hnn
        injection hv' with e
        exact absurd e.symm hnn
      · intro _
        exact dictFind_mapValsPop_ne "id" (by decide) d
      · intro k hk1 _
        exact dictFind_mapValsPop_ne k hk1 d
    · have hs := serialize_doc_nonnull d v h hv hne'
      rw [hs]
      refine ⟨?_, ?_, ?_, ?_, by simp [serialize_doc]⟩
      · rw [dictFind_dictSet_ne "id" "_id" (by decide) _ _]
        exact dictFind_mapValsPop_id d hnd
      · intro v' hv' _
        injection hv' with e
        rw [← e]
        exact dictFind_dictSet_self "id" _ _
      · intro hcon
        rcases hcon with hc | hc
        · exact absurd hc (by simp)
        · injection hc with e
          exact absurd e hv
      · intro k hk1 hk2
        rw [dictFind_dictSet_ne "id" k hk2 _ _]
        exact dictFind_mapValsPop_ne k hk1 d

/-- C9 amended witness at the concrete document
`{"_id": oid 7, "total": 25, "sub": {"_id": oid 5}}`. -/
theorem C9_serialize_characterization_witness :
    (([("_id", BVal.oid 7), ("total", BVal.num 25),
       ("sub", BVal.doc [("_id", BVal.oid 5)])] : Doc).map Prod.fst).Nodup ∧
    ([("_id", BVal.oid 7), ("total", BVal.num 25),
      ("sub", BVal.doc [("_id", BVal.oid 5)])] : Doc) ≠ [] ∧
    dictFind "_id" (serialize_doc
      [("_id", BVal.oid 7), ("total", BVal.num 25),
       ("sub", BVal.doc [("_id", BVal.oid 5)])]) = none :=
  ⟨by decide, by simp,
   (C9_serialize_characterization
     [("_id", BVal.oid 7), ("total", BVal.num 25),
      ("sub", BVal.doc [("_id", BVal.oid 5)])]
     (by decide) (by simp)).1⟩

/-- C10: the diagnostic endpoint reports at most 10 collection names for
any store state, and a listing failure is caught and reported inline in
the `database` field of the response object (with the collections list
left empty) rather than raised. -/
theorem C10_diagnostics (st : Store) (env : Env) :
    (test_database st env).collections.length ≤ 10 ∧
    (st.dbNone = false → st.failing = true →
      (test_database st env).collections = [] ∧
      (test_database st env).database =
        "⚠️  Connected but Error: " ++ ("store unreachable").take 50) := by
  constructor
  · unfold test_database
    cases hdb : st.dbNone
    · simp only [Bool.false_eq_true, if_false]
      cases hls : list_collection_names st
      · simp
      · exact List.length_take_le 10 _
    · simp
  · intro h1 h2
    have hls : list_collection_names st = .error "store unreachable" := by
      simp [list_collection_names, h2]
    unfold test_database
    rw [h1]
    simp [hls]

/-- C10 witness at a concrete store whose listing call fails. -/
theorem C10_diagnostics_witness :
    (test_database exStoreFail exEnv).collections.length ≤ 10 ∧
    (test_database exStoreFail exEnv).collections = [] ∧
    (test_database exStoreFail exEnv).database =
      "⚠️  Connected but Error: " ++ ("store unreachable").take 50 :=
  ⟨(C10_diagnostics exStoreFail exEnv).1,
   ((C10_diagnostics exStoreFail exEnv).2 rfl rfl).1,
   ((C10_diagnostics exStoreFail exEnv).2 rfl rfl).2⟩
